import Mathlib

/-!
Verification of the chat_bot_server repository: a shallow embedding of the
Redis session repository (`redis_repository.py`), its exception wrapper
(`redis_api_exceptions.py`), the Google GenAI repository
(`google_genai_llm.py`) and the wired chat route (`routes/chat.py`,
whose body coincides with `services/chat_converse_continue.py`).

External effects are embedded explicitly:
 - the Redis store is a partial map from keys to JSON values;
 - the outcome of each `redis_client.set` call is given by an oracle
   (`SetOracle`), modelling redis returning a falsy result;
 - the language-model calls are oracles from the prompt material to either
   a raw output string or a Python exception;
 - `datetime.fromisoformat` / `datetime.strptime` and `isoformat` are
   oracles over an abstract timestamp type (`Int`), since their parsing
   rules are library internals none of the claims depend on.

Pydantic request/response marshalling is embedded where a source-declared
constraint can change an outcome: `min_length=1` on
`IntentDetectorOutput.detected_intent`, and the `Message(**msg)`
construction at the end of `get_chat_data`, whose model requires
`session_id` (nullable UUID), `role`, `message` (strings) and a
`timestamp` annotated `str` — UUID well-formedness of an id string is an
oracle.  Remaining marshalling is thin record packaging.
-/

namespace ChatBot

/-- JSON-like values as stored in Redis (`json.loads` output), extended with
a `jdt` constructor for the Python `datetime` objects that
the preprocessing in `get_chat_data` substitutes for ISO timestamp strings. -/
inductive JVal where
  | jnull
  | jbool (b : Bool)
  | jnum (n : Int)
  | jstr (s : String)
  | jarr (xs : List JVal)
  | jobj (fields : List (String × JVal))
  | jdt (d : Int)

/-- Whether a JSON value is a (non-null) string. -/
def JVal.isStr : JVal → Bool
  | JVal.jstr _ => true
  | _ => false

/-- Python dict lookup (`d.get(k)`): value of the first matching key. -/
def lookupJ : List (String × JVal) → String → Option JVal
  | [], _ => none
  | (k, v) :: rest, key => if k = key then some v else lookupJ rest key

/-- Python dict assignment (`d[k] = v`): replace the existing entry in
place, or insert at the end when the key is absent. -/
def setJ : List (String × JVal) → String → JVal → List (String × JVal)
  | [], key, v => [(key, v)]
  | (k, w) :: rest, key, v =>
      if k = key then (k, v) :: rest else (k, w) :: setJ rest key v

/-- `d.setdefault("messages", []).append(m)` from `update_chat_data`:
append to the existing list, initialize the list with `[m]` when the key is
absent, and raise (`AttributeError`) when the existing value is not a list. -/
def setdefaultAppendMsg (fields : List (String × JVal)) (m : JVal) :
    Option (List (String × JVal)) :=
  match lookupJ fields "messages" with
  | none => some (fields ++ [("messages", JVal.jarr [m])])
  | some (JVal.jarr xs) => some (setJ fields "messages" (JVal.jarr (xs ++ [m])))
  | some _ => none

/-- A raised `fastapi.HTTPException`: status code and detail string. -/
structure HTTPError where
  status : Nat
  detail : String

/-- The exceptions that can cross a `try` block in this code base:
an `HTTPException`, a `redis.exceptions.RedisError`, or any other
Python exception (carrying its `str()`). -/
inductive PyExc where
  | http (e : HTTPError)
  | redis (msg : String)
  | other (msg : String)

/-- Python `str(e)`.  For a Starlette `HTTPException` the rendering is
the status code, a colon and the detail. -/
def strExc : PyExc → String
  | PyExc.http e => toString e.status ++ ": " ++ e.detail
  | PyExc.redis m => m
  | PyExc.other m => m

/-- The shared `except RedisError: handle_redis_error / except Exception:
handle_unexpected_error` tail of every `RedisRepository` method
(`redis_api_exceptions.py`).  Note that a 404 `HTTPException` raised inside
the `try` block is an `Exception` too, so it lands in the second clause and
is re-raised as a 500. -/
def wrapExcept (ctxRedis ctxOther : String) :
    Except PyExc α → Except HTTPError α
  | Except.ok a => Except.ok a
  | Except.error (PyExc.redis m) =>
      Except.error ⟨503, ctxRedis ++ ": " ++ m⟩
  | Except.error e =>
      Except.error ⟨500, ctxOther ++ ": " ++ strExc e⟩

/-- The Redis key space: keys to stored JSON records. -/
def Store := String → Option JVal

/-- `redis_client.set key value` (applied when the write is accepted). -/
def Store.set (st : Store) (k : String) (v : JVal) : Store :=
  fun k' => if k' = k then some v else st k'

/-- `redis_client.delete key`. -/
def Store.del (st : Store) (k : String) : Store :=
  fun k' => if k' = k then none else st k'

def emptyStore : Store := fun _ => none

/-- Outcome oracle for `redis_client.set`: whether the write for this
key/value is accepted (`True`) or rejected (falsy result). -/
def SetOracle := String → JVal → Bool

/-- Python `str(...)` on an optional string id: `str(None) = "None"`. -/
def pyStrOpt : Option String → String
  | some s => s
  | none => "None"

/-- Python `s.strip().lower()` as applied to the raw LLM output in
`intent_detector`. -/
def pyStripLower (s : String) : String :=
  String.mk ((((s.data.dropWhile Char.isWhitespace).reverse.dropWhile
      Char.isWhitespace).reverse).map Char.toLower)

/-- `routes/validations/input/chat_input.py` `ChatInput` (the same four
declared fields as `CreateChatDataInput` / `UpdateChatDataInput` /
`IntentDetectorInput`): an optional session UUID (kept as a string),
sender role, timestamp string and message text. -/
structure ChatInput where
  session_id : Option String
  role : String
  timestamp : String
  message : String

/-- `chat_data.dict()` as consumed by `update_chat_data` (after its
`isinstance` conversions: a UUID session id becomes a string; `None`
serializes to JSON null). -/
def ChatInput.toDict (c : ChatInput) : List (String × JVal) :=
  [("session_id", match c.session_id with
      | some s => JVal.jstr s
      | none => JVal.jnull),
   ("role", JVal.jstr c.role),
   ("timestamp", JVal.jstr c.timestamp),
   ("message", JVal.jstr c.message)]

/-- The flat record persisted by `create_chat_data`:
`chat_data.session_id = key` followed by `chat_data.to_json()`, which
stringifies the id and dumps the four declared fields.  Note there is no
"messages" key. -/
def createToJson (key : String) (c : ChatInput) : List (String × JVal) :=
  [("session_id", JVal.jstr key),
   ("role", JVal.jstr c.role),
   ("timestamp", JVal.jstr c.timestamp),
   ("message", JVal.jstr c.message)]

/-- `CreateChatDataOutput` / `UpdateChatDataOutput`. -/
structure CreateChatDataOutput where
  update_status : Bool
  session_id : String

/-- `DeleteChatDataOutput`. -/
structure DeleteChatDataOutput where
  delete_status : Nat
  session_id : String

/-- `GetChatDataOutput` as populated by `get_chat_data` (the session id,
`chat_dict.get("form")`, `chat_dict.get("intent", "unknown")` and the
preprocessed message dicts). -/
structure GetChatDataOutput where
  session_id : String
  form : JVal
  intent : JVal
  messages : List (List (String × JVal))

/-- `RedisRepository.create_chat_data` try-block: generate a key (passed in
as `key`, embedding `uuid4()`), store the flat record, and raise a 500
`HTTPException` when redis reports a failed write. -/
def tryCreate (setOk : SetOracle) (key : String) (chat : ChatInput)
    (st : Store) : Except PyExc CreateChatDataOutput × Store :=
  let record := JVal.jobj (createToJson key chat)
  if setOk key record then
    (Except.ok ⟨true, key⟩, st.set key record)
  else
    (Except.error (PyExc.http ⟨500, "Failed to save chat data"⟩), st)

/-- `RedisRepository.create_chat_data` with its exception wrapper. -/
def create_chat_data (setOk : SetOracle) (key : String) (chat : ChatInput)
    (st : Store) : Except HTTPError CreateChatDataOutput × Store :=
  let r := tryCreate setOk key chat st
  (wrapExcept "Redis error while creating chat"
      "Unexpected error while creating chat" r.1, r.2)

/-- `RedisRepository.delete_chat_data` try-block: `redis_client.delete`
returns the number of removed keys; 0 triggers a 404 `HTTPException`. -/
def tryDelete (key : String) (st : Store) :
    Except PyExc DeleteChatDataOutput × Store :=
  match st key with
  | none =>
      (Except.error (PyExc.http ⟨404, "Session " ++ key ++ " does not exist"⟩),
       st)
  | some _ => (Except.ok ⟨1, key⟩, st.del key)

/-- `RedisRepository.delete_chat_data` with its exception wrapper. -/
def delete_chat_data (key : String) (st : Store) :
    Except HTTPError DeleteChatDataOutput × Store :=
  let r := tryDelete key st
  (wrapExcept "Redis error while deleting chat"
      "Unexpected error while deleting chat" r.1, r.2)

/-- The intent normalization in the message preprocessing of `get_chat_data`:
a dict-valued intent is replaced by its `"detected_intent"` entry
(`"unknown"` when that key is absent); an absent or `None` intent becomes
`"unknown"`; anything else is left untouched. -/
def processIntent (flds : List (String × JVal)) : List (String × JVal) :=
  match lookupJ flds "intent" with
  | some (JVal.jobj d) =>
      setJ flds "intent" ((lookupJ d "detected_intent").getD (JVal.jstr "unknown"))
  | some JVal.jnull => setJ flds "intent" (JVal.jstr "unknown")
  | none => setJ flds "intent" (JVal.jstr "unknown")
  | some _ => flds

/-- The timestamp conversion in the message preprocessing of `get_chat_data`:
a string timestamp is parsed with `datetime.fromisoformat`, falling back to
`datetime.strptime(.., "%Y-%m-%d %H:%M:%S%z")`; both parsers are oracles.
If both fail the `ValueError` escapes the preprocessing loop. -/
def processTimestamp (fromiso strp : String → Option Int)
    (flds : List (String × JVal)) : Except PyExc (List (String × JVal)) :=
  match lookupJ flds "timestamp" with
  | some (JVal.jstr s) =>
      match fromiso s with
      | some d => Except.ok (setJ flds "timestamp" (JVal.jdt d))
      | none =>
          match strp s with
          | some d => Except.ok (setJ flds "timestamp" (JVal.jdt d))
          | none =>
              Except.error (PyExc.other
                ("time data " ++ s ++ " does not match format"))
  | _ => Except.ok flds

/-- One iteration of the preprocessing loop (`msg.get(...)` raises
`AttributeError` on a non-dict element). -/
def processMsg (fromiso strp : String → Option Int) (v : JVal) :
    Except PyExc (List (String × JVal)) :=
  match v with
  | JVal.jobj flds => processTimestamp fromiso strp (processIntent flds)
  | _ => Except.error (PyExc.other "AttributeError")

/-- `Message(**msg)` against the redis-output `Message` pydantic model
(`get_chat_data_output.py`): `session_id` is required but nullable and a
string value must be a well-formed UUID (well-formedness is the `isUUID`
oracle); `role` and `message` are required strings of length 1..1000;
`timestamp` is required and annotated `str`, so only a string value
validates — in particular the `datetime` object the preprocessing just
substituted is rejected (pydantic does not accept a datetime for a str
field); extra fields such as `intent` pass through unvalidated.  A
violation raises a `ValidationError`. -/
def validateMessage (isUUID : String → Bool) (flds : List (String × JVal)) :
    Except PyExc Unit :=
  let sidOk : Bool :=
    match lookupJ flds "session_id" with
    | some JVal.jnull => true
    | some (JVal.jstr s) => isUUID s
    | _ => false
  let roleOk : Bool :=
    match lookupJ flds "role" with
    | some (JVal.jstr r) => 1 ≤ r.length && r.length ≤ 1000
    | _ => false
  let tsOk : Bool :=
    match lookupJ flds "timestamp" with
    | some (JVal.jstr _) => true
    | _ => false
  let msgOk : Bool :=
    match lookupJ flds "message" with
    | some (JVal.jstr m) => 1 ≤ m.length && m.length ≤ 1000
    | _ => false
  if sidOk && roleOk && tsOk && msgOk then Except.ok ()
  else Except.error (PyExc.other "validation error for Message")

/-- The list comprehension `[Message(**msg) for msg in messages_data]`: the
first failing validation aborts the comprehension with its exception; the
field values themselves are carried through unchanged. -/
def buildMessages (isUUID : String → Bool)
    (msgs : List (List (String × JVal))) :
    Except PyExc (List (List (String × JVal))) :=
  msgs.mapM (fun m =>
    match validateMessage isUUID m with
    | Except.ok _ => Except.ok m
    | Except.error e => Except.error e)

/-- `RedisRepository.get_chat_data` try-block: 404 when the key is absent,
else load the record, preprocess every element of
`chat_dict.get("messages", [])`, construct the pydantic `Message` objects,
and build the output. -/
def tryGet (fromiso strp : String → Option Int) (isUUID : String → Bool)
    (key : String) (st : Store) : Except PyExc GetChatDataOutput :=
  match st key with
  | none => Except.error (PyExc.http ⟨404, "Session " ++ key ++ " not found"⟩)
  | some (JVal.jobj flds) =>
      let raw : Except PyExc (List JVal) :=
        match lookupJ flds "messages" with
        | none => Except.ok []
        | some (JVal.jarr xs) => Except.ok xs
        | some _ => Except.error (PyExc.other "TypeError: not iterable")
      match raw with
      | Except.error e => Except.error e
      | Except.ok xs =>
          match xs.mapM (processMsg fromiso strp) with
          | Except.error e => Except.error e
          | Except.ok msgs =>
              match buildMessages isUUID msgs with
              | Except.error e => Except.error e
              | Except.ok messages =>
                  Except.ok ⟨key, (lookupJ flds "form").getD JVal.jnull,
                    (lookupJ flds "intent").getD (JVal.jstr "unknown"),
                    messages⟩
  | some _ => Except.error (PyExc.other "AttributeError: get")

/-- `RedisRepository.get_chat_data` with its exception wrapper (read-only:
the store is unchanged). -/
def get_chat_data (fromiso strp : String → Option Int)
    (isUUID : String → Bool) (key : String) (st : Store) :
    Except HTTPError GetChatDataOutput :=
  wrapExcept "Redis error while fetching chat"
    "Unexpected error while fetching chat" (tryGet fromiso strp isUUID key st)

/-- `RedisRepository.update_chat_data` try-block: 404 `HTTPException` when
the key is absent; otherwise load the record, `setdefault`-append the new
message dict, and rewrite the whole record (500 `HTTPException` when redis
rejects the write). -/
def tryUpdate (setOk : SetOracle) (key : String)
    (newMsg : List (String × JVal)) (st : Store) :
    Except PyExc CreateChatDataOutput × Store :=
  match st key with
  | none =>
      (Except.error (PyExc.http ⟨404, "Session " ++ key ++ " does not exist"⟩),
       st)
  | some (JVal.jobj flds) =>
      match setdefaultAppendMsg flds (JVal.jobj newMsg) with
      | none => (Except.error (PyExc.other "AttributeError: append"), st)
      | some flds' =>
          let record := JVal.jobj flds'
          if setOk key record then
            (Except.ok ⟨true, key⟩, st.set key record)
          else
            (Except.error
              (PyExc.http ⟨500, "Failed to update session " ++ key⟩), st)
  | some _ =>
      (Except.error (PyExc.other "AttributeError: setdefault"), st)

/-- `RedisRepository.update_chat_data` with its exception wrapper; the key
is `str(chat_data.session_id)` (so a `None` id yields key `"None"`). -/
def update_chat_data (setOk : SetOracle) (sid : Option String)
    (newMsg : List (String × JVal)) (st : Store) :
    Except HTTPError CreateChatDataOutput × Store :=
  let r := tryUpdate setOk (pyStrOpt sid) newMsg st
  (wrapExcept "Redis error while updating chat"
      "Unexpected error while updating chat" r.1, r.2)

/-- The hard-coded intent catalog in `intent_detector`. -/
def intentsList : List String :=
  ["booking", "quote", "build lead times", "accounts", "unknown"]

def booking_questions : List String :=
  ["What type of travel will you be booking (e.g. flight, hotel, rental car)?",
   "Where is your destination and when do you plan to arrive?",
   "How many people will be traveling with you?",
   "Do you have any specific dates or time frames in mind for your trip?",
   "Are there any special requirements or preferences for your booking (e.g. seat selection, room type)?"]

def quote_questions : List String :=
  ["What services or products are you interested in getting a quote for?",
   "Can you provide more details about the project or scope of work?",
   "What is your estimated budget for this project?",
   "Are there any specific requirements or deadlines that need to be met?",
   "Have you received quotes from other vendors on similar projects?"]

def build_lead_times_questions : List String :=
  ["How many hours do you typically spend on a task like this?",
   "Can you walk me through the steps involved in completing this task?",
   "What tools or resources do you currently use to manage your workflow?",
   "Are there any bottlenecks or roadblocks that slow down your work process?",
   "Have you considered implementing any new processes or systems to improve efficiency?"]

def accounts_questions : List String :=
  ["Can you provide more details about the disputed charge on your account?",
   "How did you discover the error in your account?",
   "What steps have you taken so far to resolve this issue?",
   "Are there any supporting documents or receipts that can help us investigate further?",
   "Would you like to proceed with a refund or credit to your account?"]

def unknown_questions : List String := []

/-- Python `repr` of a list of strings, as interpolated into the intent
prompt f-string. -/
def pyListRepr (xs : List String) : String :=
  "[" ++ String.intercalate ", " (xs.map (fun s => "\x27" ++ s ++ "\x27")) ++ "]"

/-- The system prompt of `intent_detector`. -/
def intentSystemPrompt : String :=
  "You are an intent detector. Your task is to classify the following message into one of the possible intents:\n"
    ++ pyListRepr intentsList
    ++ "\n\nPlease respond with the one that is closely matched to the list above. If nothing seems to match, then respond with \"unknown\".\n"

/-- `IntentDetectorOutput` (`intent_detector_output.py`). -/
structure IntentDetectorOutput where
  session_id : String
  detected_intent : String
  questions : List String

/-- Constructing an `IntentDetectorOutput`: the pydantic model requires a
UUID `session_id` (a `None` id fails validation) and constrains
`detected_intent` with `min_length=1, max_length=255`; a violation raises a
`ValidationError`. -/
def mkIntentDetectorOutput (sid : Option String) (t : String)
    (qs : List String) : Except PyExc IntentDetectorOutput :=
  match sid with
  | none => Except.error (PyExc.other "validation error for IntentDetectorOutput: session_id")
  | some s =>
      if t.length < 1 || 255 < t.length then
        Except.error (PyExc.other "validation error for IntentDetectorOutput: detected_intent")
      else
        Except.ok ⟨s, t, qs⟩

/-- An LLM oracle: from the system prompt and the human message to either a
raw output text or a raised exception. -/
def LLMOracle := String → String → Except PyExc String

/-- The `match detected_intent_text: case ...` block of `intent_detector`
selecting `intent_based_questions` (default case: `unknown_questions`). -/
def questionsFor (t : String) : List String :=
  match t with
  | "booking" => booking_questions
  | "quote" => quote_questions
  | "build lead times" => build_lead_times_questions
  | "accounts" => accounts_questions
  | "unknown" => unknown_questions
  | _ => unknown_questions

/-- `GoogleGeminaiRepository.intent_detector` try-block: call the model
once on the system prompt plus the user message, strip+lowercase the raw
output, select the question list by a `match` on the normalized text
(default: the empty `unknown_questions`), and return the normalized text
itself as `detected_intent` — it is not re-mapped to the catalog. -/
def tryIntentDetector (llm : LLMOracle) (um : ChatInput) :
    Except PyExc IntentDetectorOutput :=
  match llm intentSystemPrompt um.message with
  | Except.error e => Except.error e
  | Except.ok raw =>
      let detected_intent_text := pyStripLower raw
      mkIntentDetectorOutput um.session_id detected_intent_text
        (questionsFor detected_intent_text)

/-- `GoogleGeminaiRepository.intent_detector`: the whole body sits in one
`try`, and any exception (LLM failure included) is re-raised as an
`HTTPException` with status 400. -/
def intent_detector (llm : LLMOracle) (um : ChatInput) :
    Except HTTPError IntentDetectorOutput :=
  match tryIntentDetector llm um with
  | Except.ok out => Except.ok out
  | Except.error e =>
      Except.error ⟨400,
        "Issue(s) encountered when detecting user intent: " ++ strExc e⟩

/-- A history entry as consumed by `chatbot_continue_conversation`
(`msg.role` / `msg.message` attribute access). -/
structure GMsg where
  role : String
  message : String

/-- Step 2 of `chatbot_continue_conversation`: `"role: text"` per line. -/
def formatHistory (msgs : List GMsg) : String :=
  String.intercalate "\n" (msgs.map (fun m => m.role ++ ": " ++ m.message))

/-- The filled prompt template of `chatbot_continue_conversation` (rule
text abridged; its wording is opaque to every claim — only the embedded
question list and serialized history matter). -/
def continuePrompt (questions : List String) (history : List GMsg) : String :=
  "You are an intelligent and helpful assistant. Follow these rules strictly: always ask the questions provided below, keep the conversation on topic, and continue naturally from the last message.\n\nQuestions to ask (do not modify these): \n"
    ++ String.intercalate "\n" questions
    ++ "\n\nPrevious chat history (use this to continue the conversation naturally): \n"
    ++ formatHistory history
    ++ "\n\nNow continue the conversation.\n"

/-- Step 3 of `chatbot_continue_conversation`: map history roles to the
native taxonomy of the model (`user` → `HumanMessage`, `assistant` →
`AIMessage`, anything else skipped with a warning). -/
def roleMapped : List GMsg → List (String × String)
  | [] => []
  | m :: rest =>
      if m.role = "user" then ("human", m.message) :: roleMapped rest
      else if m.role = "assistant" then ("ai", m.message) :: roleMapped rest
      else roleMapped rest

/-- Modelled from the spec: `ChatBotContinueOutput` — its module
(`repositories/validations/googleGeminiLLM/output/chat_bot_continue_output.py`)
is imported by `google_genai_llm.py` but missing from the sources; per spec
§4.3 the reply wraps the raw text output into a message with role
"assistant" and the current timestamp, plus the session id passed through
(as the construction site names the fields). -/
structure ChatBotContinueOutput where
  message : String
  role : String
  timestamp : Int
  session_id : Option String

/-- `llm_response.dict()` as consumed by the final `update_chat_data` call
of a turn (datetime → `isoformat()` string via the `isoOf` oracle; UUID →
string; a `None` id serializes to JSON null). -/
def ChatBotContinueOutput.toDict (isoOf : Int → String)
    (r : ChatBotContinueOutput) : List (String × JVal) :=
  [("message", JVal.jstr r.message),
   ("role", JVal.jstr r.role),
   ("timestamp", JVal.jstr (isoOf r.timestamp)),
   ("session_id", match r.session_id with
      | some s => JVal.jstr s
      | none => JVal.jnull)]

/-- A generation oracle: from the system prompt and the role-mapped history
to either a raw output text or a raised exception. -/
def GenOracle := String → List (String × String) → Except PyExc String

/-- `GoogleGeminaiRepository.chatbot_continue_conversation`: format the
prompt from the questions and the serialized history (no emptiness check of
either), call the model once inside a `try` whose only handler re-raises a
500 `HTTPException`, and wrap the raw text as an assistant message stamped
`datetime.utcnow()` (the `now` parameter). -/
def chatbot_continue_conversation (llm : GenOracle) (now : Int)
    (session_id : Option String) (chat_history : List GMsg)
    (questions : List String) : Except HTTPError ChatBotContinueOutput :=
  let system_prompt := continuePrompt questions chat_history
  match llm system_prompt (roleMapped chat_history) with
  | Except.error e =>
      Except.error ⟨500, "LLM generation failed: " ++ strExc e⟩
  | Except.ok response_text =>
      Except.ok ⟨response_text, "assistant", now, session_id⟩

/-- Attribute access on a preprocessed message dict where a string is
expected (`msg.role`, `msg.message`). -/
def strFieldOf (flds : List (String × JVal)) (k : String) : String :=
  match lookupJ flds k with
  | some (JVal.jstr s) => s
  | _ => ""

/-- The `chat_history.messages` elements as consumed (duck-typed) by
`chatbot_continue_conversation` at the call site in the chat route. -/
def toGMsgs (msgs : List (List (String × JVal))) : List GMsg :=
  msgs.map (fun flds => ⟨strFieldOf flds "role", strFieldOf flds "message"⟩)

/-- The wired `POST /user/chat` handler (`routes/chat.py`, identical in
body to `services/chat_converse_continue.py`): unconditionally append the
user message (the `create_chat_data` call is commented out in the source),
detect the intent, fetch the history, generate the reply, append the
reply, and return it.  An `HTTPException` from any step propagates and aborts
the turn. -/
def chat_turn (intentLLM : LLMOracle) (genLLM : GenOracle)
    (setOk : SetOracle) (fromiso strp : String → Option Int)
    (isUUID : String → Bool) (isoOf : Int → String) (now : Int)
    (um : ChatInput) (st : Store) :
    Except HTTPError ChatBotContinueOutput × Store :=
  let r1 := update_chat_data setOk um.session_id um.toDict st
  match r1.1 with
  | Except.error e => (Except.error e, r1.2)
  | Except.ok _ =>
      match intent_detector intentLLM um with
      | Except.error e => (Except.error e, r1.2)
      | Except.ok intent_detected =>
          match get_chat_data fromiso strp isUUID (pyStrOpt um.session_id)
              r1.2 with
          | Except.error e => (Except.error e, r1.2)
          | Except.ok chat_history =>
              match chatbot_continue_conversation genLLM now um.session_id
                  (toGMsgs chat_history.messages) intent_detected.questions with
              | Except.error e => (Except.error e, r1.2)
              | Except.ok llm_response =>
                  let r5 := update_chat_data setOk llm_response.session_id
                    (llm_response.toDict isoOf) r1.2
                  match r5.1 with
                  | Except.error e => (Except.error e, r5.2)
                  | Except.ok _ => (Except.ok llm_response, r5.2)

/-- A strictly sequential run of `appendMessage` calls against the same
session (the iteration quantified over by spec §8): apply
`update_chat_data` for each message in call order, stopping at the first
failure. -/
def appendAll (setOk : SetOracle) (sid : Option String)
    (msgs : List (List (String × JVal))) (st : Store) :
    Except HTTPError Unit × Store :=
  match msgs with
  | [] => (Except.ok (), st)
  | m :: rest =>
      let r := update_chat_data setOk sid m st
      match r.1 with
      | Except.error e => (Except.error e, r.2)
      | Except.ok _ => appendAll setOk sid rest r.2

theorem lookupJ_setJ_self (flds : List (String × JVal)) (k : String) (v : JVal) :
    lookupJ (setJ flds k v) k = some v := by
  induction flds with
  | nil => simp [setJ, lookupJ]
  | cons p rest ih =>
      obtain ⟨k', w⟩ := p
      by_cases h : k' = k <;> simp [setJ, lookupJ, h, ih]

theorem lookupJ_setJ_ne (flds : List (String × JVal)) (k k' : String) (v : JVal)
    (h : k' ≠ k) : lookupJ (setJ flds k v) k' = lookupJ flds k' := by
  induction flds with
  | nil => simp [setJ, lookupJ, Ne.symm h]
  | cons p rest ih =>
      obtain ⟨k₀, w⟩ := p
      by_cases h₀ : k₀ = k
      · subst h₀
        simp [setJ, lookupJ, Ne.symm h]
      · simp [setJ, lookupJ, h₀, ih]

theorem setJ_of_lookupJ (flds : List (String × JVal)) (k : String) (v : JVal)
    (h : lookupJ flds k = some v) : setJ flds k v = flds := by
  induction flds with
  | nil => simp [lookupJ] at h
  | cons p rest ih =>
      obtain ⟨k₀, w⟩ := p
      by_cases h₀ : k₀ = k
      · subst h₀
        simp [lookupJ] at h
        simp [setJ, h]
      · simp [lookupJ, h₀] at h
        simp [setJ, h₀, ih h]

theorem setJ_setJ (flds : List (String × JVal)) (k : String) (v v' : JVal) :
    setJ (setJ flds k v) k v' = setJ flds k v' := by
  induction flds with
  | nil => simp [setJ]
  | cons p rest ih =>
      obtain ⟨k₀, w⟩ := p
      by_cases h₀ : k₀ = k <;> simp [setJ, h₀, ih]

theorem lookupJ_append_single (flds : List (String × JVal)) (k : String) (v : JVal)
    (h : lookupJ flds k = none) : lookupJ (flds ++ [(k, v)]) k = some v := by
  induction flds with
  | nil => simp [lookupJ]
  | cons p rest ih =>
      obtain ⟨k₀, w⟩ := p
      by_cases h₀ : k₀ = k
      · simp [lookupJ, h₀] at h
      · simp [lookupJ, h₀] at h ⊢
        exact ih h

theorem Store.set_get_self (st : Store) (k : String) (v : JVal) :
    (st.set k v) k = some v := by simp [Store.set]

theorem Store.set_set (st : Store) (k : String) (v v' : JVal) :
    (st.set k v).set k v' = st.set k v' := by
  funext k'
  by_cases h : k' = k <;> simp [Store.set, h]

theorem Store.set_same (st : Store) (k : String) (v : JVal)
    (h : st k = some v) : st.set k v = st := by
  funext k'
  by_cases h' : k' = k <;> simp [Store.set, h']
  subst h'
  exact h.symm

theorem string_append_assoc (a b c : String) : a ++ b ++ c = a ++ (b ++ c) := by
  cases a with
  | mk la =>
    cases b with
    | mk lb =>
      cases c with
      | mk lc =>
        show String.mk (la ++ lb ++ lc) = String.mk (la ++ (lb ++ lc))
        rw [List.append_assoc]

/-- A normalized model output that matches no catalog entry selects the
(empty) `unknown_questions` via the default `case`. -/
theorem questionsFor_of_not_mem (t : String) (h : t ∉ intentsList) :
    questionsFor t = [] := by
  unfold questionsFor
  split
  · simp [intentsList] at h
  · simp [intentsList] at h
  · simp [intentsList] at h
  · simp [intentsList] at h
  · simp [intentsList] at h
  · rfl

/-- An `update_chat_data` call that raised leaves the store untouched
(every error branch returns the incoming state; a rejected write is not
applied). -/
theorem update_error_preserves (setOk : SetOracle) (sid : Option String)
    (newMsg : List (String × JVal)) (st : Store) (e : HTTPError)
    (h : (update_chat_data setOk sid newMsg st).1 = Except.error e) :
    (update_chat_data setOk sid newMsg st).2 = st := by
  cases hst : st (pyStrOpt sid) with
  | none => simp [update_chat_data, tryUpdate, hst]
  | some v =>
      cases v
      case jobj flds =>
        cases hsd : setdefaultAppendMsg flds (JVal.jobj newMsg) with
        | none => simp [update_chat_data, tryUpdate, hst, hsd]
        | some flds' =>
            by_cases hok : setOk (pyStrOpt sid) (JVal.jobj flds')
            · simp [update_chat_data, tryUpdate, hst, hsd, hok, wrapExcept] at h
            · simp [update_chat_data, tryUpdate, hst, hsd, hok]
      all_goals simp [update_chat_data, tryUpdate, hst]

/-- A successful `update_chat_data` leaves, under the session key, a record
whose "messages" list ends with the appended message dict. -/
theorem update_ok_messages (setOk : SetOracle) (sid : Option String)
    (newMsg : List (String × JVal)) (st : Store) (u : CreateChatDataOutput)
    (h : (update_chat_data setOk sid newMsg st).1 = Except.ok u) :
    ∃ flds pre,
      (update_chat_data setOk sid newMsg st).2 (pyStrOpt sid) =
        some (JVal.jobj flds) ∧
      lookupJ flds "messages" = some (JVal.jarr (pre ++ [JVal.jobj newMsg])) := by
  cases hst : st (pyStrOpt sid) with
  | none => simp [update_chat_data, tryUpdate, hst, wrapExcept] at h
  | some v =>
      cases v
      case jobj flds =>
        cases hsd : setdefaultAppendMsg flds (JVal.jobj newMsg) with
        | none => simp [update_chat_data, tryUpdate, hst, hsd, wrapExcept] at h
        | some flds' =>
            by_cases hok : setOk (pyStrOpt sid) (JVal.jobj flds')
            · refine ⟨flds', ?_⟩
              have hstore :
                  (update_chat_data setOk sid newMsg st).2 (pyStrOpt sid) =
                    some (JVal.jobj flds') := by
                simp [update_chat_data, tryUpdate, hst, hsd, hok,
                  Store.set_get_self]
              unfold setdefaultAppendMsg at hsd
              cases hl : lookupJ flds "messages" with
              | none =>
                  rw [hl] at hsd
                  simp at hsd
                  subst hsd
                  exact ⟨[], hstore, by
                    simpa using lookupJ_append_single flds "messages"
                      (JVal.jarr [JVal.jobj newMsg]) hl⟩
              | some w =>
                  rw [hl] at hsd
                  cases w with
                  | jarr xs =>
                      simp at hsd
                      subst hsd
                      exact ⟨xs, hstore, lookupJ_setJ_self flds "messages" _⟩
                  | jnull => simp at hsd
                  | jbool b => simp at hsd
                  | jnum n => simp at hsd
                  | jstr s => simp at hsd
                  | jobj o => simp at hsd
                  | jdt d => simp at hsd
            · simp [update_chat_data, tryUpdate, hst, hsd, hok, wrapExcept] at h
      all_goals simp [update_chat_data, tryUpdate, hst, wrapExcept] at h

/-- Claim C1, counterexample: when the model replies "Maybe Booking", the
normalized output "maybe booking" is returned verbatim as the detected
intent although it is a member of neither the catalog nor its extension by
"unknown" — the claimed re-mapping of non-matching output to "unknown"
does not happen. -/
theorem C1_counterexample :
    intent_detector (fun _ _ => Except.ok "Maybe Booking")
      ⟨some "s", "user", "2025-01-01T00:00:00", "hello"⟩ =
      Except.ok ⟨"s", "maybe booking", []⟩ ∧
    "maybe booking" ∉ intentsList ∧ "maybe booking" ≠ "unknown" ∧
    "maybe booking" ≠ "" :=
  ⟨rfl, by decide, by decide, by decide⟩

/-- Claim C1, amended: for every model run that returns raw text, a
successful `intent_detector` result carries exactly the trimmed,
lower-cased model output as `detected_intent` — never the empty string
(an empty normalized output fails the declared `min_length=1` validation
instead of being returned) — and when that output matches no catalog
entry, only the follow-up `questions` list falls back (to the empty list);
the label itself is not mapped to "unknown". -/
theorem C1_detect_returns_normalized_output (raw : String) (um : ChatInput)
    (out : IntentDetectorOutput)
    (h : intent_detector (fun _ _ => Except.ok raw) um = Except.ok out) :
    out.detected_intent = pyStripLower raw ∧
    out.detected_intent ≠ "" ∧
    (out.detected_intent ∉ intentsList → out.questions = []) := by
  unfold intent_detector tryIntentDetector mkIntentDetectorOutput at h
  cases hsid : um.session_id with
  | none => rw [hsid] at h; simp at h
  | some s =>
      rw [hsid] at h
      by_cases hlen : (pyStripLower raw).length = 0 ∨
          255 < (pyStripLower raw).length
      · simp [hlen] at h
      · simp [hlen] at h
        subst h
        refine ⟨rfl, ?_, ?_⟩
        · intro hempty
          simp only [] at hempty
          simp [hempty] at hlen
        · intro hmem
          exact questionsFor_of_not_mem _ hmem

/-- Claim C1, witness for the amended theorem at the raw output
"Maybe Booking". -/
theorem C1_witness :
    ((⟨"s", "maybe booking", []⟩ : IntentDetectorOutput).detected_intent =
      pyStripLower "Maybe Booking") ∧
    (⟨"s", "maybe booking", []⟩ : IntentDetectorOutput).detected_intent ≠ "" ∧
    ((⟨"s", "maybe booking", []⟩ : IntentDetectorOutput).detected_intent ∉
        intentsList →
      (⟨"s", "maybe booking", []⟩ : IntentDetectorOutput).questions = []) :=
  C1_detect_returns_normalized_output "Maybe Booking"
    ⟨some "s", "user", "2025-01-01T00:00:00", "hello"⟩
    ⟨"s", "maybe booking", []⟩ rfl

/-- Claim C2: deleting an existing session succeeds, but the second delete
of the same session — and likewise any delete of a missing session — is
surfaced with status 500, not 404: the 404 `HTTPException` raised inside
the `try` block is swallowed by the blanket `except Exception` clause and
re-raised by `handle_unexpected_error` as a 500 whose detail merely embeds
the original "404: Session ... does not exist" text. -/
theorem C2_second_delete_surfaces_500 (key : String) (v : JVal) (st : Store)
    (h : st key = some v) :
    delete_chat_data key st = (Except.ok ⟨1, key⟩, st.del key) ∧
    (delete_chat_data key (st.del key)).1 =
      Except.error ⟨500, "Unexpected error while deleting chat" ++ ": " ++
        (toString (404 : Nat) ++ ": " ++
          ("Session " ++ key ++ " does not exist"))⟩ ∧
    (500 : Nat) ≠ 404 := by
  refine ⟨?_, ?_, by decide⟩
  · simp [delete_chat_data, tryDelete, h, wrapExcept]
  · have hdel : (st.del key) key = none := by simp [Store.del]
    simp [delete_chat_data, tryDelete, hdel, wrapExcept, strExc]

/-- Claim C2, witness: delete the session "s" twice starting from a store
holding it. -/
theorem C2_witness :
    delete_chat_data "s" (Store.set emptyStore "s" (JVal.jobj [])) =
      (Except.ok ⟨1, "s"⟩,
       Store.del (Store.set emptyStore "s" (JVal.jobj [])) "s") ∧
    (delete_chat_data "s"
        (Store.del (Store.set emptyStore "s" (JVal.jobj [])) "s")).1 =
      Except.error ⟨500, "Unexpected error while deleting chat" ++ ": " ++
        (toString (404 : Nat) ++ ": " ++
          ("Session " ++ "s" ++ " does not exist"))⟩ ∧
    (500 : Nat) ≠ 404 :=
  C2_second_delete_surfaces_500 "s" (JVal.jobj [])
    (Store.set emptyStore "s" (JVal.jobj [])) rfl

/-- Claim C3, counterexample: immediately after a successful `create(m)`
under key "k", `get` returns a session whose message sequence is the empty
list, not the one-element list `[m]` — `create_chat_data` persists the
initial message flat at the top level of the record and never under a
"messages" key. -/
theorem C3_counterexample :
    (create_chat_data (fun _ _ => true) "k"
        ⟨none, "user", "2025-01-01T00:00:00", "hi"⟩ emptyStore).1 =
      Except.ok ⟨true, "k"⟩ ∧
    get_chat_data (fun _ => none) (fun _ => none) (fun _ => true) "k"
        (create_chat_data (fun _ _ => true) "k"
          ⟨none, "user", "2025-01-01T00:00:00", "hi"⟩ emptyStore).2 =
      Except.ok ⟨"k", JVal.jnull, JVal.jstr "unknown", []⟩ ∧
    ([] : List (List (String × JVal))) ≠
      [createToJson "k" ⟨none, "user", "2025-01-01T00:00:00", "hi"⟩] :=
  ⟨rfl, rfl, by simp⟩

/-- Claim C3, amended: for every message m, immediately after a successful
`create(m)` with resulting key, the store holds the flat record of the
four message fields, and `get` on that key succeeds with an empty message
sequence (form defaulting to null and intent to "unknown"). -/
theorem C3_get_after_create_returns_empty_messages (key : String)
    (m : ChatInput) (st : Store) (fromiso strp : String → Option Int)
    (isUUID : String → Bool) :
    create_chat_data (fun _ _ => true) key m st =
      (Except.ok ⟨true, key⟩, st.set key (JVal.jobj (createToJson key m))) ∧
    get_chat_data fromiso strp isUUID key
        (st.set key (JVal.jobj (createToJson key m))) =
      Except.ok ⟨key, JVal.jnull, JVal.jstr "unknown", []⟩ := by
  constructor
  · simp [create_chat_data, tryCreate, wrapExcept]
  · have hget : (st.set key (JVal.jobj (createToJson key m))) key =
        some (JVal.jobj (createToJson key m)) := Store.set_get_self ..
    have hmsg : lookupJ (createToJson key m) "messages" = none := by
      simp [createToJson, lookupJ]
    have hform : lookupJ (createToJson key m) "form" = none := by
      simp [createToJson, lookupJ]
    have hint : lookupJ (createToJson key m) "intent" = none := by
      simp [createToJson, lookupJ]
    simp [get_chat_data, tryGet, buildMessages, hget, hmsg, hform, hint,
      wrapExcept, List.mapM.loop, pure, Except.pure]

/-- Claim C4: starting from a session whose stored record holds the prior
history, a strictly sequential run of N `appendMessage` calls in which
every write is accepted succeeds and leaves exactly the prior history
followed by the N appended message dicts, in call order. -/
theorem C4_sequential_appends_in_order (key : String)
    (flds : List (String × JVal)) (hist : List JVal)
    (msgs : List (List (String × JVal))) (st : Store)
    (hst : st key = some (JVal.jobj flds))
    (hmsgs : lookupJ flds "messages" = some (JVal.jarr hist)) :
    appendAll (fun _ _ => true) (some key) msgs st =
      (Except.ok (), st.set key
        (JVal.jobj (setJ flds "messages"
          (JVal.jarr (hist ++ msgs.map JVal.jobj))))) := by
  induction msgs generalizing flds hist st with
  | nil =>
      simp [appendAll]
      rw [setJ_of_lookupJ flds "messages" _ hmsgs]
      exact (Store.set_same st key _ hst).symm
  | cons m rest ih =>
      have hupd : update_chat_data (fun _ _ => true) (some key) m st =
          (Except.ok ⟨true, key⟩, st.set key (JVal.jobj
            (setJ flds "messages" (JVal.jarr (hist ++ [JVal.jobj m]))))) := by
        simp [update_chat_data, tryUpdate, pyStrOpt, hst, setdefaultAppendMsg,
          hmsgs, wrapExcept]
      have hih := ih (setJ flds "messages" (JVal.jarr (hist ++ [JVal.jobj m])))
        (hist ++ [JVal.jobj m])
        (st.set key (JVal.jobj
          (setJ flds "messages" (JVal.jarr (hist ++ [JVal.jobj m])))))
        (Store.set_get_self ..) (lookupJ_setJ_self ..)
      simp [appendAll, hupd, hih, Store.set_set, setJ_setJ]

/-- Claim C5, counterexample: with an empty history and an empty questions
list the conversation-continuation call does not fail with any client
error — the model is invoked regardless and its reply is returned as an
assistant message. -/
theorem C5_counterexample :
    chatbot_continue_conversation (fun _ _ => Except.ok "reply") 0 (some "s")
        [] [] =
      Except.ok ⟨"reply", "assistant", 0, some "s"⟩ := rfl

/-- Claim C5, amended: `chatbot_continue_conversation` performs no
emptiness validation at all: for every history and questions list —
including empty ones — its outcome is exactly the outcome of the model
call on the formatted prompt: an assistant-role reply wrapping the raw
output on success, or a 500 "LLM generation failed" error on model
failure; no InvalidInput error is possible. -/
theorem C5_no_emptiness_validation (llm : GenOracle) (now : Int)
    (sid : Option String) (hist : List GMsg) (qs : List String) :
    (∃ t, llm (continuePrompt qs hist) (roleMapped hist) = Except.ok t ∧
      chatbot_continue_conversation llm now sid hist qs =
        Except.ok ⟨t, "assistant", now, sid⟩) ∨
    (∃ e, llm (continuePrompt qs hist) (roleMapped hist) = Except.error e ∧
      chatbot_continue_conversation llm now sid hist qs =
        Except.error ⟨500, "LLM generation failed: " ++ strExc e⟩) := by
  cases hllm : llm (continuePrompt qs hist) (roleMapped hist) with
  | ok t =>
      exact Or.inl ⟨t, rfl, by simp [chatbot_continue_conversation, hllm]⟩
  | error e =>
      exact Or.inr ⟨e, rfl, by simp [chatbot_continue_conversation, hllm]⟩

/-- Claim C6, counterexample: a request without a session identifier on an
empty store is not served by creating a session — the handler goes
straight to `update_chat_data` under the key "None", fails (the NotFound
surfaced as a wrapped 500), and the store is left unchanged: no session
was created. -/
theorem C6_counterexample :
    chat_turn (fun _ _ => Except.ok "booking") (fun _ _ => Except.ok "reply")
        (fun _ _ => true) (fun _ => none) (fun _ => none) (fun _ => true)
        (fun _ => "iso") 0
        ⟨none, "user", "2025-01-01T00:00:00", "hello"⟩ emptyStore =
      (Except.error ⟨500,
        "Unexpected error while updating chat: 404: Session None does not exist"⟩,
       emptyStore) := rfl

/-- Claim C6, amended: the wired `/user/chat` handler never calls the
create operation — it always appends via `update_chat_data` under
`str(session_id)`; in particular a request carrying no session identifier
targets the key "None" and (when no such key exists) the whole turn fails
with the wrapped-500 NotFound error, leaving the store exactly as it was:
session creation only exists on the separate `/chats/start` endpoint. -/
theorem C6_missing_session_id_never_creates (intentLLM : LLMOracle)
    (genLLM : GenOracle) (setOk : SetOracle)
    (fromiso strp : String → Option Int) (isUUID : String → Bool)
    (isoOf : Int → String) (now : Int)
    (um : ChatInput) (st : Store) (hnone : um.session_id = none)
    (habsent : st "None" = none) :
    chat_turn intentLLM genLLM setOk fromiso strp isUUID isoOf now um st =
      (Except.error ⟨500,
        "Unexpected error while updating chat: 404: Session None does not exist"⟩,
       st) := by
  have h1 : update_chat_data setOk um.session_id um.toDict st =
      (Except.error ⟨500,
        "Unexpected error while updating chat: 404: Session None does not exist"⟩,
       st) := by
    rw [hnone]
    simp [update_chat_data, tryUpdate, pyStrOpt, habsent, wrapExcept, strExc]
    rfl
  simp [chat_turn, h1]

/-- Claim C6, witness for the amended theorem on the empty store. -/
theorem C6_witness :
    chat_turn (fun _ _ => Except.ok "quote") (fun _ _ => Except.ok "hello")
        (fun _ _ => true) (fun _ => some 0) (fun _ => none) (fun _ => true)
        (fun _ => "iso") 0
        ⟨none, "assistant", "2025-01-02T00:00:00", "hey"⟩ emptyStore =
      (Except.error ⟨500,
        "Unexpected error while updating chat: 404: Session None does not exist"⟩,
       emptyStore) :=
  C6_missing_session_id_never_creates (fun _ _ => Except.ok "quote")
    (fun _ _ => Except.ok "hello") (fun _ _ => true) (fun _ => some 0)
    (fun _ => none) (fun _ => true) (fun _ => "iso") 0
    ⟨none, "assistant", "2025-01-02T00:00:00", "hey"⟩ emptyStore rfl rfl

/-- Claim C7, counterexample: a failed model call inside intent
classification is surfaced with status 400 — a client error, not a server
error — though the underlying message is attached. -/
theorem C7_counterexample :
    intent_detector (fun _ _ => Except.error (PyExc.other "model timed out"))
        ⟨some "s", "user", "2025-01-01T00:00:00", "hello"⟩ =
      Except.error ⟨400,
        "Issue(s) encountered when detecting user intent: model timed out"⟩ ∧
    400 < 500 :=
  ⟨rfl, by decide⟩

/-- Claim C7, amended: a model-call failure is never silently swallowed
and always carries the underlying diagnostic text, but the status class
differs by site: intent classification wraps every failure as a 400 client
error, while reply generation wraps it as a 500 server error. -/
theorem C7_failure_statuses (e : PyExc) (um : ChatInput) (now : Int)
    (sid : Option String) (hist : List GMsg) (qs : List String) :
    intent_detector (fun _ _ => Except.error e) um =
      Except.error ⟨400,
        "Issue(s) encountered when detecting user intent: " ++ strExc e⟩ ∧
    chatbot_continue_conversation (fun _ _ => Except.error e) now sid hist qs =
      Except.error ⟨500, "LLM generation failed: " ++ strExc e⟩ := by
  constructor
  · simp [intent_detector, tryIntentDetector]
  · simp [chatbot_continue_conversation]

/-- Claim C8: whenever the initial append of the user message succeeded
and the turn as a whole fails, the final store equals the store right
after that first append — no compensating rollback — and the stored
session still contains the appended user message at the end of its
message list; the turn surfaces the single propagated error. -/
theorem C8_user_message_survives_failed_turn (intentLLM : LLMOracle)
    (genLLM : GenOracle) (setOk : SetOracle)
    (fromiso strp : String → Option Int) (isUUID : String → Bool)
    (isoOf : Int → String) (now : Int)
    (um : ChatInput) (st : Store) (u : CreateChatDataOutput) (e : HTTPError)
    (hok : (update_chat_data setOk um.session_id um.toDict st).1 = Except.ok u)
    (herr : (chat_turn intentLLM genLLM setOk fromiso strp isUUID isoOf now
      um st).1 = Except.error e) :
    (chat_turn intentLLM genLLM setOk fromiso strp isUUID isoOf now um st).2 =
      (update_chat_data setOk um.session_id um.toDict st).2 ∧
    ∃ flds pre,
      (chat_turn intentLLM genLLM setOk fromiso strp isUUID isoOf now um st).2
          (pyStrOpt um.session_id) = some (JVal.jobj flds) ∧
      lookupJ flds "messages" =
        some (JVal.jarr (pre ++ [JVal.jobj um.toDict])) := by
  have hmain : (chat_turn intentLLM genLLM setOk fromiso strp isUUID isoOf
      now um st).2 =
      (update_chat_data setOk um.session_id um.toDict st).2 := by
    cases hI : intent_detector intentLLM um with
    | error eI => simp [chat_turn, hok, hI]
    | ok outI =>
        cases hG : get_chat_data fromiso strp isUUID (pyStrOpt um.session_id)
            (update_chat_data setOk um.session_id um.toDict st).2 with
        | error eG => simp [chat_turn, hok, hI, hG]
        | ok outG =>
            cases hC : chatbot_continue_conversation genLLM now um.session_id
                (toGMsgs outG.messages) outI.questions with
            | error eC => simp [chat_turn, hok, hI, hG, hC]
            | ok resp =>
                cases hU5 : (update_chat_data setOk resp.session_id
                    (resp.toDict isoOf)
                    (update_chat_data setOk um.session_id um.toDict st).2).1 with
                | error e5 =>
                    have hpres := update_error_preserves setOk resp.session_id
                      (resp.toDict isoOf)
                      (update_chat_data setOk um.session_id um.toDict st).2 e5 hU5
                    simp [chat_turn, hok, hI, hG, hC, hU5, hpres]
                | ok u5 =>
                    exfalso
                    simp [chat_turn, hok, hI, hG, hC, hU5] at herr
  refine ⟨hmain, ?_⟩
  rw [hmain]
  exact update_ok_messages setOk um.session_id um.toDict st u hok

/-- The per-message preprocessing of `get_chat_data`, in isolation: a
dictionary-valued intent is replaced by its "detected_intent" entry when
present (taken verbatim) and by "unknown" when the key is absent; an
absent or null intent becomes "unknown"; a string intent is kept; a
string timestamp that parses is replaced by a datetime value. -/
theorem preprocess_intent_timestamp_cases
    (fromiso strp : String → Option Int) (flds : List (String × JVal)) :
    (∀ d, lookupJ flds "intent" = some (JVal.jobj d) →
      lookupJ (processIntent flds) "intent" =
        some ((lookupJ d "detected_intent").getD (JVal.jstr "unknown"))) ∧
    (lookupJ flds "intent" = some JVal.jnull ∨ lookupJ flds "intent" = none →
      lookupJ (processIntent flds) "intent" = some (JVal.jstr "unknown")) ∧
    (∀ s, lookupJ flds "intent" = some (JVal.jstr s) →
      lookupJ (processIntent flds) "intent" = some (JVal.jstr s)) ∧
    (∀ s out, lookupJ flds "timestamp" = some (JVal.jstr s) →
      processTimestamp fromiso strp flds = Except.ok out →
      ∃ d, lookupJ out "timestamp" = some (JVal.jdt d)) := by
  refine ⟨?_, ?_, ?_, ?_⟩
  · intro d hd
    simp [processIntent, hd, lookupJ_setJ_self]
  · rintro (hd | hd) <;> simp [processIntent, hd, lookupJ_setJ_self]
  · intro s hd
    simp [processIntent, hd]
  · intro s out hts hproc
    unfold processTimestamp at hproc
    rw [hts] at hproc
    cases hiso : fromiso s with
    | some d =>
        simp [hiso] at hproc
        subst hproc
        exact ⟨d, lookupJ_setJ_self ..⟩
    | none =>
        cases hstr : strp s with
        | some d =>
            simp [hiso, hstr] at hproc
            subst hproc
            exact ⟨d, lookupJ_setJ_self ..⟩
        | none =>
            simp [hiso, hstr] at hproc

/-- Claim C10: the record persisted by `create_chat_data` has no
"messages" key at all, and the first `appendMessage` against such a record
does not fail: it initializes the list so that the stored message list is
exactly the singleton holding the newly appended message — the
creation-time message stays in the flat top-level fields and is not a
member of that list. -/
theorem C10_first_append_initializes_messages (key : String) (m : ChatInput)
    (flds newMsg : List (String × JVal)) (st : Store)
    (hst : st key = some (JVal.jobj flds))
    (hnone : lookupJ flds "messages" = none) :
    lookupJ (createToJson key m) "messages" = none ∧
    update_chat_data (fun _ _ => true) (some key) newMsg st =
      (Except.ok ⟨true, key⟩,
       st.set key (JVal.jobj
         (flds ++ [("messages", JVal.jarr [JVal.jobj newMsg])]))) ∧
    lookupJ (flds ++ [("messages", JVal.jarr [JVal.jobj newMsg])]) "messages" =
      some (JVal.jarr [JVal.jobj newMsg]) := by
  refine ⟨by simp [createToJson, lookupJ], ?_,
    lookupJ_append_single _ _ _ hnone⟩
  simp [update_chat_data, tryUpdate, pyStrOpt, hst, setdefaultAppendMsg,
    hnone, wrapExcept]

/-- Claim C4, witness: two appends to session "s" starting from an empty
stored history. -/
theorem C4_witness :
    appendAll (fun _ _ => true) (some "s")
        [[("message", JVal.jstr "a")], [("message", JVal.jstr "b")]]
        (Store.set emptyStore "s" (JVal.jobj [("messages", JVal.jarr [])])) =
      (Except.ok (),
       (Store.set emptyStore "s"
          (JVal.jobj [("messages", JVal.jarr [])])).set "s"
         (JVal.jobj (setJ [("messages", JVal.jarr [])] "messages"
           (JVal.jarr ([] ++
             [[("message", JVal.jstr "a")],
              [("message", JVal.jstr "b")]].map JVal.jobj))))) :=
  C4_sequential_appends_in_order "s" [("messages", JVal.jarr [])] []
    [[("message", JVal.jstr "a")], [("message", JVal.jstr "b")]]
    (Store.set emptyStore "s" (JVal.jobj [("messages", JVal.jarr [])]))
    rfl rfl

/-- Claim C8, witness: a turn that fails after the user message was
appended to session "s" (here the history fetch fails: the freshly
appended message has its timestamp parsed to a datetime, which the
`Message` validation then rejects). -/
theorem C8_witness :
    (chat_turn (fun _ _ => Except.ok "booking")
        (fun _ _ => Except.error (PyExc.other "boom")) (fun _ _ => true)
        (fun _ => some 0) (fun _ => none) (fun _ => true) (fun _ => "iso") 0
        ⟨some "s", "user", "2025-01-01T00:00:00", "hi"⟩
        (Store.set emptyStore "s" (JVal.jobj []))).2 =
      (update_chat_data (fun _ _ => true)
        (ChatInput.session_id ⟨some "s", "user", "2025-01-01T00:00:00", "hi"⟩)
        (ChatInput.toDict ⟨some "s", "user", "2025-01-01T00:00:00", "hi"⟩)
        (Store.set emptyStore "s" (JVal.jobj []))).2 ∧
    ∃ flds pre,
      (chat_turn (fun _ _ => Except.ok "booking")
          (fun _ _ => Except.error (PyExc.other "boom")) (fun _ _ => true)
          (fun _ => some 0) (fun _ => none) (fun _ => true) (fun _ => "iso") 0
          ⟨some "s", "user", "2025-01-01T00:00:00", "hi"⟩
          (Store.set emptyStore "s" (JVal.jobj []))).2
          (pyStrOpt
            (ChatInput.session_id
              ⟨some "s", "user", "2025-01-01T00:00:00", "hi"⟩)) =
        some (JVal.jobj flds) ∧
      lookupJ flds "messages" =
        some (JVal.jarr (pre ++
          [JVal.jobj (ChatInput.toDict
            ⟨some "s", "user", "2025-01-01T00:00:00", "hi"⟩)])) :=
  C8_user_message_survives_failed_turn (fun _ _ => Except.ok "booking")
    (fun _ _ => Except.error (PyExc.other "boom")) (fun _ _ => true)
    (fun _ => some 0) (fun _ => none) (fun _ => true) (fun _ => "iso") 0
    ⟨some "s", "user", "2025-01-01T00:00:00", "hi"⟩
    (Store.set emptyStore "s" (JVal.jobj [])) ⟨true, "s"⟩
    ⟨500, "Unexpected error while fetching chat: validation error for Message"⟩
    rfl rfl

/-- Claim C9 (code_bug evaluation): at a stored record exactly like those
written by `update_chat_data` — all four declared fields present, a valid
session UUID string, a parseable ISO timestamp string, a null intent —
the preprocessing of `get_chat_data` does normalize the intent to
"unknown" and parse the timestamp into a datetime value, exactly as the
claim describes; but the `Message(**msg)` construction that follows
rejects the very datetime the preprocessing just produced (the model
annotates `timestamp` as `str`), so the call surfaces a wrapped 500 and
the session is never returned. -/
theorem C9_get_rejects_preprocessed_messages :
    processMsg (fun _ => some 5) (fun _ => none)
        (JVal.jobj
          [("session_id", JVal.jstr "123e4567-e89b-12d3-a456-426614174000"),
           ("role", JVal.jstr "user"),
           ("timestamp", JVal.jstr "2025-01-01T00:00:00"),
           ("message", JVal.jstr "hi"),
           ("intent", JVal.jnull)]) =
      Except.ok
        [("session_id", JVal.jstr "123e4567-e89b-12d3-a456-426614174000"),
         ("role", JVal.jstr "user"),
         ("timestamp", JVal.jdt 5),
         ("message", JVal.jstr "hi"),
         ("intent", JVal.jstr "unknown")] ∧
    get_chat_data (fun _ => some 5) (fun _ => none) (fun _ => true) "k"
        (Store.set emptyStore "k" (JVal.jobj [("messages", JVal.jarr
          [JVal.jobj
            [("session_id", JVal.jstr "123e4567-e89b-12d3-a456-426614174000"),
             ("role", JVal.jstr "user"),
             ("timestamp", JVal.jstr "2025-01-01T00:00:00"),
             ("message", JVal.jstr "hi"),
             ("intent", JVal.jnull)]])])) =
      Except.error ⟨500,
        "Unexpected error while fetching chat: validation error for Message"⟩ :=
  ⟨rfl, rfl⟩

/-- Claim C10, witness: the first append of a message to the flat record
produced by `create_chat_data` under key "k". -/
theorem C10_witness :
    lookupJ (createToJson "k" ⟨none, "user", "t", "hi"⟩) "messages" = none ∧
    update_chat_data (fun _ _ => true) (some "k")
        [("message", JVal.jstr "x")]
        (Store.set emptyStore "k"
          (JVal.jobj (createToJson "k" ⟨none, "user", "t", "hi"⟩))) =
      (Except.ok ⟨true, "k"⟩,
       (Store.set emptyStore "k"
          (JVal.jobj (createToJson "k" ⟨none, "user", "t", "hi"⟩))).set "k"
         (JVal.jobj (createToJson "k" ⟨none, "user", "t", "hi"⟩ ++
           [("messages", JVal.jarr [JVal.jobj [("message", JVal.jstr "x")]])]))) ∧
    lookupJ (createToJson "k" ⟨none, "user", "t", "hi"⟩ ++
        [("messages", JVal.jarr [JVal.jobj [("message", JVal.jstr "x")]])])
      "messages" =
      some (JVal.jarr [JVal.jobj [("message", JVal.jstr "x")]]) :=
  C10_first_append_initializes_messages "k" ⟨none, "user", "t", "hi"⟩
    (createToJson "k" ⟨none, "user", "t", "hi"⟩)
    [("message", JVal.jstr "x")]
    (Store.set emptyStore "k"
      (JVal.jobj (createToJson "k" ⟨none, "user", "t", "hi"⟩)))
    rfl rfl

end ChatBot
